import Mathlib

/-!
# Hospitable Properties Viewer — shallow embedding of `worker.js`

This file embeds the Cloudflare Worker `worker.js` (request router,
authentication gate, cookie parser, session-token derivation, static asset
resolver and upstream API proxy) as executable Lean definitions, and proves
the specification claims about it.

Modelling conventions:
* Worker secrets (`AUTH_USERNAME`, `AUTH_PASSWORD`, `HOSPITABLE_API_TOKEN`)
  are `Option String`: `none` models an unset (JS `undefined`) binding,
  `some s` a configured string.  JS truthiness of such a value is `jsFalsy`;
  template-literal interpolation of an undefined value renders `"undefined"`
  (`jsToString`).
* JS exceptions are modelled with `Option`: `none` is a thrown error that the
  surrounding code does not catch (`btoa` on a code point above U+00FF,
  `decodeURIComponent` on a malformed escape); `try`/`catch` blocks in the
  source turn the `none` back into the catch-branch response.
* The embedded static asset texts (HTML/CSS/JS template literals) are out of
  scope of the spec; they are represented by the symbolic `FileContent`
  constructors while the dispatch on file names is embedded faithfully.
* Time: `new Date().toDateString()` is an input `today : String` (the current
  calendar day rendered as a date string); all functions are explicit in it.
-/

namespace Worker

/-- JS `String.prototype.split` with a one-character separator, on char
lists: splits at every occurrence, keeping empty segments (`"a;;b"` gives
`["a","","b"]`, `""` gives `[""]`). -/
def jsSplitChar (sep : Char) : List Char → List (List Char)
  | [] => [[]]
  | c :: rest =>
    let r := jsSplitChar sep rest
    if c = sep then [] :: r
    else
      match r with
      | [] => [[c]]
      | h :: t => (c :: h) :: t

/-- JS `s.split(sep)` for a one-character separator. -/
def jsSplit (s : String) (sep : Char) : List String :=
  (jsSplitChar sep s.data).map String.mk

/-- JS `String.prototype.trim`: drop leading and trailing whitespace. -/
def jsTrim (s : String) : String :=
  String.mk
    (((s.data.dropWhile Char.isWhitespace).reverse.dropWhile
        Char.isWhitespace).reverse)

/-- JS `String.prototype.startsWith`. -/
def strStartsWith (s p : String) : Bool := p.data.isPrefixOf s.data

/-- JS `String.prototype.endsWith`. -/
def strEndsWith (s p : String) : Bool := p.data.reverse.isPrefixOf s.data.reverse

/-- JS falsiness of a possibly-undefined string binding:
`undefined` and `""` are falsy, every other string is truthy. -/
def jsFalsy : Option String → Bool
  | none => true
  | some s => s = ""

/-- JS template-literal rendering of a possibly-undefined string:
`undefined` interpolates as the text `"undefined"`. -/
def jsToString : Option String → String
  | none => "undefined"
  | some s => s

/-- The three Cloudflare Worker secrets (global bindings in `worker.js`). -/
structure Env where
  AUTH_USERNAME : Option String
  AUTH_PASSWORD : Option String
  HOSPITABLE_API_TOKEN : Option String
deriving Repr, DecidableEq

/-! ## btoa (base64 over Latin-1 code units) -/

/-- The base64 alphabet used by `btoa`. -/
def base64Alphabet : List Char :=
  "ABCDEFGHIJKLMNOPQRSTUVWXYZabcdefghijklmnopqrstuvwxyz0123456789+/".data

/-- Character of the base64 alphabet at a 6-bit index. -/
def base64Char (n : Nat) : Char := base64Alphabet.getD n 'A'

/-- Base64 encoding of a byte list (3 bytes → 4 chars, `=`-padded). -/
def base64Encode : List Nat → List Char
  | [] => []
  | [b1] => [base64Char (b1 / 4), base64Char (b1 % 4 * 16), '=', '=']
  | [b1, b2] =>
      [base64Char (b1 / 4), base64Char (b1 % 4 * 16 + b2 / 16),
       base64Char (b2 % 16 * 4), '=']
  | b1 :: b2 :: b3 :: rest =>
      base64Char (b1 / 4) :: base64Char (b1 % 4 * 16 + b2 / 16) ::
      base64Char (b2 % 16 * 4 + b3 / 64) :: base64Char (b3 % 64) ::
      base64Encode rest

/-- JS `btoa`: treats each UTF-16 code unit as one byte; throws
`InvalidCharacterError` (modelled as `none`) on a code point above U+00FF. -/
def btoa (s : String) : Option String :=
  if s.data.all (fun c => c.toNat < 256) then
    some (String.mk (base64Encode (s.data.map Char.toNat)))
  else
    none

/-- The character class `[a-zA-Z0-9]` of the regex in `getValidSessionToken`. -/
def isAlnumChar (c : Char) : Bool :=
  (65 ≤ c.toNat && c.toNat ≤ 90) || (97 ≤ c.toNat && c.toNat ≤ 122) ||
  (48 ≤ c.toNat && c.toNat ≤ 57)

/-- `.replace(/[^a-zA-Z0-9]/g, "")`: delete every non-alphanumeric char. -/
def stripNonAlnum (s : String) : String := String.mk (s.data.filter isAlnumChar)

/-- `getValidSessionToken` from `worker.js`:
`btoa` of `` `${AUTH_USERNAME}:${today}` `` with non-alphanumerics stripped.
`today` stands for `new Date().toDateString()`.  `none` models the
(uncaught at this level) `btoa` exception. -/
def getValidSessionToken (env : Env) (today : String) : Option String :=
  (btoa (jsToString env.AUTH_USERNAME ++ ":" ++ today)).map stripNonAlnum

/-! ## decodeURIComponent -/

/-- UTF-8 bytes of one character (the byte view JS takes of plain characters
when mixing them with percent-decoded bytes). -/
def utf8EncodeChar (c : Char) : List Nat :=
  let n := c.toNat
  if n < 128 then [n]
  else if n < 2048 then [192 + n / 64, 128 + n % 64]
  else if n < 65536 then [224 + n / 4096, 128 + n / 64 % 64, 128 + n % 64]
  else [240 + n / 262144, 128 + n / 4096 % 64, 128 + n / 64 % 64, 128 + n % 64]

/-- Strict UTF-8 decoding of a byte list; rejects overlong forms, surrogates
and out-of-range sequences exactly as `decodeURIComponent` does (an invalid
sequence is a `URIError`, modelled as `none`). -/
def utf8Decode : List Nat → Option (List Char)
  | [] => some []
  | b :: rest =>
    if b < 128 then (utf8Decode rest).map (Char.ofNat b :: ·)
    else if b < 194 then none
    else if b < 224 then
      match rest with
      | b1 :: rest1 =>
        if 128 ≤ b1 && b1 < 192 then
          (utf8Decode rest1).map (Char.ofNat ((b - 192) * 64 + (b1 - 128)) :: ·)
        else none
      | [] => none
    else if b < 240 then
      match rest with
      | b1 :: b2 :: rest2 =>
        let lo1 := if b = 224 then 160 else 128
        let hi1 := if b = 237 then 160 else 192
        if lo1 ≤ b1 && b1 < hi1 && 128 ≤ b2 && b2 < 192 then
          (utf8Decode rest2).map
            (Char.ofNat ((b - 224) * 4096 + (b1 - 128) * 64 + (b2 - 128)) :: ·)
        else none
      | _ => none
    else if b < 245 then
      match rest with
      | b1 :: b2 :: b3 :: rest3 =>
        let lo1 := if b = 240 then 144 else 128
        let hi1 := if b = 244 then 144 else 192
        if lo1 ≤ b1 && b1 < hi1 && 128 ≤ b2 && b2 < 192 &&
           128 ≤ b3 && b3 < 192 then
          (utf8Decode rest3).map
            (Char.ofNat ((b - 240) * 262144 + (b1 - 128) * 4096 +
              (b2 - 128) * 64 + (b3 - 128)) :: ·)
        else none
      | _ => none
    else none

/-- Value of a hex digit, `none` for a non-hex character. -/
def hexVal (c : Char) : Option Nat :=
  let n := c.toNat
  if 48 ≤ n && n ≤ 57 then some (n - 48)
  else if 65 ≤ n && n ≤ 70 then some (n - 55)
  else if 97 ≤ n && n ≤ 102 then some (n - 87)
  else none

/-- Percent-decoding pass: `%hh` contributes the byte `hh`; a bare or
malformed `%` is a `URIError` (`none`); any other character contributes its
UTF-8 bytes. -/
def percentDecodeBytes : List Char → Option (List Nat)
  | [] => some []
  | '%' :: c1 :: c2 :: rest => do
      let h1 ← hexVal c1
      let h2 ← hexVal c2
      let tail ← percentDecodeBytes rest
      some ((h1 * 16 + h2) :: tail)
  | '%' :: _ => none
  | c :: rest => (percentDecodeBytes rest).map (fun tl => utf8EncodeChar c ++ tl)

/-- JS `decodeURIComponent`; `none` models a thrown `URIError`. -/
def decodeURIComponent (s : String) : Option String := do
  let bytes ← percentDecodeBytes s.data
  let chars ← utf8Decode bytes
  some (String.mk chars)

/-! ## parseCookies -/

/-- JS object property assignment `cookies[name] = v`: overwrite in place if
the key exists, else append (insertion order preserved). -/
def setKV : List (String × String) → String → String → List (String × String)
  | [], k, v => [(k, v)]
  | (k0, v0) :: rest, k, v =>
      if k0 = k then (k, v) :: rest else (k0, v0) :: setKV rest k v

/-- One iteration of the `forEach` in `parseCookies`: trim the segment, split
on every `=`, destructure the first two fields, store when both are truthy
(the value is URL-decoded, and a decode error propagates). -/
def parseCookieSegment (m : List (String × String)) (segment : String) :
    Option (List (String × String)) :=
  match jsSplit (jsTrim segment) '=' with
  | name :: value :: _ =>
      if name ≠ "" && value ≠ "" then
        (decodeURIComponent value).map (setKV m name)
      else some m
  | _ => some m

/-- `parseCookies` from `worker.js`: empty header gives an empty mapping,
otherwise split on `;` and process each segment; `none` models an uncaught
`URIError` from `decodeURIComponent`. -/
def parseCookies (cookieHeader : String) : Option (List (String × String)) :=
  if cookieHeader = "" then some []
  else (jsSplit cookieHeader ';').foldlM parseCookieSegment []

/-! ## Responses and the authentication gate -/

/-- Symbolic names for the embedded static asset texts served by
`getFileContent` (their byte content is presentation, out of the spec's
scope); `fileNotFound` is the literal `"File not found"` default. -/
inductive FileContent
  | indexHtml
  | loginHtml
  | appJs
  | stylesCss
  | fileNotFound
deriving Repr, DecidableEq

/-- A JSON error object as built by `JSON.stringify({error, message, ...})`
in the worker; `status` and `details` are present only when the source object
includes them. -/
structure ErrorBody where
  error : String
  message : String
  status : Option Nat
  details : Option String
deriving Repr, DecidableEq

/-- A response body: a plain string, an embedded asset, a JSON error object,
or a passed-through upstream JSON payload. -/
inductive Body
  | text (s : String)
  | asset (f : FileContent)
  | jsonErr (e : ErrorBody)
  | jsonData (d : String)
deriving Repr, DecidableEq

/-- An HTTP response as constructed by `new Response(body, init)`: the status
(200 when the init omits it) and exactly the headers the init passes. -/
structure Response where
  status : Nat
  headers : List (String × String)
  body : Body
deriving Repr, DecidableEq

/-- `new Response("", { status: 302, headers: { Location: loc } })`. -/
def redirectResponse (loc : String) : Response :=
  ⟨302, [("Location", loc)], .text ""⟩

/-- The single redirect the authentication gate produces (same construction
for an absent and for a wrong cookie). -/
def loginRedirect : Response := redirectResponse "/login"

/-- Outcome of `checkAuthentication`: the request proceeds, or the gate
answers with its redirect response. -/
inductive AuthResult
  | authenticated
  | unauthenticated (response : Response)
deriving Repr, DecidableEq

/-- `checkAuthentication` from `worker.js`: parse the `Cookie` header, read
`session_token`, and compare (after the falsiness short-circuit) with the
recomputed token; `none` models an uncaught exception (`URIError` from the
cookie parser, or `btoa` failing while recomputing the token). -/
def checkAuthentication (env : Env) (today : String) (cookieHeader : String) :
    Option AuthResult := do
  let cookies ← parseCookies cookieHeader
  match cookies.lookup "session_token" with
  | none => some (.unauthenticated loginRedirect)
  | some tok =>
    if tok = "" then some (.unauthenticated loginRedirect)
    else do
      let expected ← getValidSessionToken env today
      if tok = expected then some .authenticated
      else some (.unauthenticated loginRedirect)

/-- The two form fields `handleLogin` reads; `none` models `formData.get`
returning `null` for an absent field. -/
structure FormData where
  username : Option String
  password : Option String
deriving Repr, DecidableEq

/-- The `Set-Cookie` header value issued on a successful login. -/
def setCookieHeader (tok : String) : String :=
  "session_token=" ++ tok ++
    "; Path=/; HttpOnly; Secure; SameSite=Strict; Max-Age=86400"

/-- `handleLogin` from `worker.js`.  The `form` argument is the outcome of
`await request.formData()` (`none` = it threw, landing in the catch branch);
a `btoa` failure while deriving the token is also caught by the same
`try`/`catch` and yields the `error=error` redirect. -/
def handleLogin (env : Env) (today : String) (form : Option FormData) :
    Response :=
  match form with
  | none => redirectResponse "/login?error=error"
  | some f =>
    if jsFalsy env.AUTH_USERNAME || jsFalsy env.AUTH_PASSWORD then
      redirectResponse "/login?error=config"
    else if f.username = env.AUTH_USERNAME ∧ f.password = env.AUTH_PASSWORD then
      match getValidSessionToken env today with
      | none => redirectResponse "/login?error=error"
      | some tok =>
          ⟨302, [("Location", "/"), ("Set-Cookie", setCookieHeader tok)],
           .text ""⟩
    else redirectResponse "/login?error=invalid"

/-! ## Static assets -/

/-- `getContentType` from `worker.js`. -/
def getContentType (filename : String) : String :=
  if strEndsWith filename ".html" then "text/html"
  else if strEndsWith filename ".css" then "text/css"
  else if strEndsWith filename ".js" then "application/javascript"
  else "text/plain"

/-- The `switch` of `getFileContent`, with asset texts symbolic. -/
def getFileContent : String → FileContent
  | "index.html" => .indexHtml
  | "login.html" => .loginHtml
  | "app.js" => .appJs
  | "styles.css" => .stylesCss
  | _ => .fileNotFound

/-- `getFileResponse` from `worker.js` (status defaults to 200). -/
def getFileResponse (filename : String) : Response :=
  ⟨200, [("Content-Type", getContentType filename)],
   .asset (getFileContent filename)⟩

/-- `handlePublicRoutes` from `worker.js` (dispatches on the path only). -/
def handlePublicRoutes (path : String) : Response :=
  if path = "/login" then getFileResponse "login.html"
  else if path = "/styles.css" then getFileResponse "styles.css"
  else ⟨404, [], .text "Not Found"⟩

/-- The parts of an inbound request the worker reads: method, `url.pathname`,
the raw `Cookie` header (`none` = header absent), the `page` / `per_page`
query parameters (`none` = `searchParams.get` returned `null`), and the form
body for `POST /login`. -/
structure Request where
  method : String
  path : String
  cookieHeader : Option String
  pageParam : Option String
  perPageParam : Option String
  form : Option FormData
deriving Repr, DecidableEq

/-- JS `x || d` for a string-or-null `x`: `null` and `""` fall back to `d`. -/
def jsOrDefault (o : Option String) (d : String) : String :=
  match o with
  | none => d
  | some s => if s = "" then d else s

/-! ## Upstream API proxy -/

/-- The outbound `fetch` the proxy would issue: URL and headers. -/
structure FetchCall where
  url : String
  httpMethod : String
  accept : String
  authorization : String
deriving Repr, DecidableEq

/-- Outcome of an awaited upstream `fetch`: a thrown transport error with its
message, or a response with an HTTP status whose `await response.json()`
either parses to an (opaque) payload or throws with a message. -/
inductive FetchOutcome
  | fetchError (msg : String)
  | resp (status : Nat) (jsonBody : Except String String)
deriving Repr

/-- `response.ok`: status in the 2xx range. -/
def responseOk (status : Nat) : Bool := 200 ≤ status && status ≤ 299

/-- The headers of every JSON response the proxy builds. -/
def jsonHeaders : List (String × String) := [("Content-Type", "application/json")]

/-- `handlePropertiesAPI` from `worker.js`, split at its outbound call:
`.inl r` means the handler answers `r` without ever calling `fetch`
(the missing-token fast path); `.inr (call, k)` means it issues `call` and
maps the outcome through `k` (the `try`/`catch` catches transport and JSON
errors, so `k` is total). -/
def handlePropertiesAPI (env : Env) (req : Request) :
    Sum Response (FetchCall × (FetchOutcome → Response)) :=
  let page := jsOrDefault req.pageParam "1"
  let perPage := jsOrDefault req.perPageParam "50"
  if jsFalsy env.HOSPITABLE_API_TOKEN then
    .inl ⟨500, jsonHeaders,
      .jsonErr ⟨"API_TOKEN_MISSING",
        "Hospitable API token not configured. Please set the HOSPITABLE_API_TOKEN secret in Cloudflare Workers.",
        none, none⟩⟩
  else
    .inr (⟨"https://public.api.hospitable.com/v2/properties?page=" ++ page ++
            "&per_page=" ++ perPage ++ "&include=listings,details",
           "GET", "application/json",
           "Bearer " ++ jsToString env.HOSPITABLE_API_TOKEN⟩,
      fun outcome =>
        match outcome with
        | .fetchError m =>
            ⟨500, jsonHeaders,
             .jsonErr ⟨"NETWORK_ERROR",
               "Failed to connect to Hospitable API. Please check your internet connection.",
               none, some m⟩⟩
        | .resp status jsonBody =>
          if responseOk status then
            match jsonBody with
            | .ok d => ⟨200, jsonHeaders, .jsonData d⟩
            | .error m =>
                ⟨500, jsonHeaders,
                 .jsonErr ⟨"NETWORK_ERROR",
                   "Failed to connect to Hospitable API. Please check your internet connection.",
                   none, some m⟩⟩
          else
            let errorType :=
              if status = 401 then "AUTHENTICATION_ERROR"
              else if status = 403 then "AUTHORIZATION_ERROR"
              else if status = 429 then "RATE_LIMIT_ERROR"
              else "API_ERROR"
            let errorMessage :=
              if status = 401 then
                "Authentication failed. Please check your API token."
              else if status = 403 then
                "Access forbidden. Please check your API permissions."
              else if status = 429 then
                "Rate limit exceeded. Please try again later."
              else "API request failed"
            ⟨status, jsonHeaders,
             .jsonErr ⟨errorType, errorMessage, some status, none⟩⟩)

/-- `handlePropertyDetailsAPI` from `worker.js`, split like
`handlePropertiesAPI`; the property id is the last `/`-segment of the path
(`url.pathname.split("/").pop()`). -/
def handlePropertyDetailsAPI (env : Env) (req : Request) :
    Sum Response (FetchCall × (FetchOutcome → Response)) :=
  let propertyId := (jsSplit req.path '/').getLastD ""
  if jsFalsy env.HOSPITABLE_API_TOKEN then
    .inl ⟨500, jsonHeaders,
      .jsonErr ⟨"API_TOKEN_MISSING",
        "Hospitable API token not configured.", none, none⟩⟩
  else
    .inr (⟨"https://public.api.hospitable.com/v2/properties/" ++ propertyId ++
            "?include=listings,details",
           "GET", "application/json",
           "Bearer " ++ jsToString env.HOSPITABLE_API_TOKEN⟩,
      fun outcome =>
        match outcome with
        | .fetchError m =>
            ⟨500, jsonHeaders,
             .jsonErr ⟨"NETWORK_ERROR", "Failed to fetch property details.",
               none, some m⟩⟩
        | .resp status jsonBody =>
          if responseOk status then
            match jsonBody with
            | .ok d => ⟨200, jsonHeaders, .jsonData d⟩
            | .error m =>
                ⟨500, jsonHeaders,
                 .jsonErr ⟨"NETWORK_ERROR", "Failed to fetch property details.",
                   none, some m⟩⟩
          else
            let errorType :=
              if status = 401 then "AUTHENTICATION_ERROR"
              else if status = 404 then "NOT_FOUND_ERROR"
              else "API_ERROR"
            let errorMessage :=
              if status = 401 then
                "Authentication failed. Please check your API token."
              else if status = 404 then "Property not found."
              else "Failed to fetch property details"
            ⟨status, jsonHeaders,
             .jsonErr ⟨errorType, errorMessage, some status, none⟩⟩)

/-- Compose a split proxy handler with an actual upstream behaviour. -/
def runFetch (h : Sum Response (FetchCall × (FetchOutcome → Response)))
    (fetchFn : FetchCall → FetchOutcome) : Response :=
  match h with
  | .inl r => r
  | .inr (c, k) => k (fetchFn c)

/-! ## The request router -/

/-- `handleRequest` from `worker.js`: the ordered dispatch over
(method, path), with the authentication gate in front of every non-public
route.  `fetchFn` is the upstream collaborator; `none` models an uncaught
exception escaping to the host runtime. -/
def handleRequest (env : Env) (today : String) (req : Request)
    (fetchFn : FetchCall → FetchOutcome) : Option Response :=
  if req.path = "/login" ∧ req.method = "POST" then
    some (handleLogin env today req.form)
  else if req.path = "/login" ∨ req.path = "/styles.css" then
    some (handlePublicRoutes req.path)
  else do
    let authResult ← checkAuthentication env today (req.cookieHeader.getD "")
    match authResult with
    | .unauthenticated r => some r
    | .authenticated =>
      if req.path = "/" ∨ req.path = "/index.html" then
        some (getFileResponse "index.html")
      else if req.path = "/app.js" then some (getFileResponse "app.js")
      else if req.path = "/api/properties" then
        some (runFetch (handlePropertiesAPI env req) fetchFn)
      else if strStartsWith req.path "/api/property/" then
        some (runFetch (handlePropertyDetailsAPI env req) fetchFn)
      else some ⟨404, [], .text "Not Found"⟩

/-! ## Definitions following the spec's words (for refinement comparison) -/

/-- Cookie parsing as the spec's words describe it (§4.2): split on `;`,
trim, split each segment on the FIRST `=` (the value is everything after it),
URL-decode the value, skip segments with a missing `=` or an empty name.
Declared only to compare with the `parseCookies` embedded from the source. -/
def parseCookiesSpecFirstEq (cookieHeader : String) :
    Option (List (String × String)) :=
  if cookieHeader = "" then some []
  else
    (jsSplit cookieHeader ';').foldlM
      (fun m segment =>
        match jsSplit (jsTrim segment) '=' with
        | name :: rest =>
          if rest ≠ [] ∧ name ≠ "" then
            (decodeURIComponent (String.intercalate "=" rest)).map (setKV m name)
          else some m
        | [] => some m)
      []

/-- Token derivation as the spec's words describe it (§4.1, C9): base64 over
the UTF-8 bytes of `"{username}:{calendarDay}"`, then strip every
non-alphanumeric character.  Declared only to compare with
`getValidSessionToken` embedded from the source (which uses `btoa`, i.e.
Latin-1 code units). -/
def deriveTokenSpecUTF8 (username today : String) : String :=
  stripNonAlnum
    (String.mk
      (base64Encode (((username ++ ":" ++ today).data.map utf8EncodeChar).flatten)))

/-! ## Concrete fixtures used by witnesses and counterexamples -/

/-- A fully configured environment. -/
def testEnv : Env := ⟨some "admin", some "pw", some "tkn"⟩

/-- A fixed calendar day (`Date.prototype.toDateString` format). -/
def testDay : String := "Mon Jan 01 2024"

/-- `getValidSessionToken testEnv testDay` (base64 of `"admin:Mon Jan 01 2024"`). -/
def testToken : String := "YWRtaW46TW9uIEphbiAwMSAyMDI0"

/-- The environment with all three secrets unset. -/
def unsetEnv : Env := ⟨none, none, none⟩

/-- The token the worker derives when `AUTH_USERNAME` is unset:
base64 of `"undefined:Mon Jan 01 2024"`, `=`-padding stripped. -/
def undefinedToken : String := "dW5kZWZpbmVkOk1vbiBKYW4gMDEgMjAyNA"

/-- An upstream collaborator that is never consulted meaningfully. -/
def noFetch : FetchCall → FetchOutcome := fun _ => .fetchError "no upstream"

/-- `GET /api/properties?page=2`. -/
def listReq : Request := ⟨"GET", "/api/properties", none, some "2", none, none⟩

/-- `GET /api/property/abc`. -/
def detailsReq : Request := ⟨"GET", "/api/property/abc", none, none, none, none⟩

/-! ## Theorems -/

/-- Every character surviving `stripNonAlnum` is alphanumeric. -/
theorem stripNonAlnum_all (s : String) :
    (stripNonAlnum s).data.all isAlnumChar = true := by
  simp only [stripNonAlnum, List.all_eq_true]
  intro c hc
  exact (List.mem_filter.mp hc).2

/-- Claim C1: the authentication gate extracts the `session_token` cookie,
recomputes the expected token for today, and compares for exact equality:
equal means the request proceeds; an absent or wrong cookie produces the
302 redirect to `/login`, and it is the same response value (`loginRedirect`)
in both cases. -/
theorem c1_authentication_gate (env : Env) (today ch : String)
    (cookies : List (String × String)) (expected : String)
    (hparse : parseCookies ch = some cookies)
    (hderive : getValidSessionToken env today = some expected) :
    (cookies.lookup "session_token" = some expected → expected ≠ "" →
      checkAuthentication env today ch = some .authenticated)
    ∧ (cookies.lookup "session_token" = none →
      checkAuthentication env today ch = some (.unauthenticated loginRedirect))
    ∧ (∀ t, cookies.lookup "session_token" = some t → t ≠ expected →
      checkAuthentication env today ch = some (.unauthenticated loginRedirect)) := by
  refine ⟨?_, ?_, ?_⟩
  · intro hlook hne
    simp [checkAuthentication, hparse, hlook, hderive, hne]
  · intro hlook
    simp [checkAuthentication, hparse, hlook]
  · intro t hlook hne
    by_cases ht : t = ""
    · simp [checkAuthentication, hparse, hlook, ht]
    · simp [checkAuthentication, hparse, hlook, hderive, ht, hne]

/-- Witness for C1 at a concrete environment, day and cookie headers. -/
theorem c1_authentication_gate_witness :
    checkAuthentication testEnv testDay ("session_token=" ++ testToken)
        = some .authenticated
    ∧ checkAuthentication testEnv testDay ""
        = some (.unauthenticated loginRedirect)
    ∧ checkAuthentication testEnv testDay "session_token=WRONG"
        = some (.unauthenticated loginRedirect) := by
  refine ⟨?_, ?_, ?_⟩
  · exact (c1_authentication_gate testEnv testDay ("session_token=" ++ testToken)
      [("session_token", testToken)] testToken (by decide) (by decide)).1
      (by decide) (by decide)
  · exact (c1_authentication_gate testEnv testDay "" [] testToken
      (by decide) (by decide)).2.1 (by decide)
  · exact (c1_authentication_gate testEnv testDay "session_token=WRONG"
      [("session_token", "WRONG")] testToken (by decide) (by decide)).2.2
      "WRONG" (by decide) (by decide)

/-- Claim C2: `POST /login` behaviour — a form-parsing failure redirects to
`/login?error=error`; a missing configured secret redirects to
`/login?error=config`; exactly matching credentials redirect to `/` and set
the `session_token` cookie to the derived token with
`Path=/; HttpOnly; Secure; SameSite=Strict; Max-Age=86400`; non-matching
credentials redirect to `/login?error=invalid` with no `Set-Cookie` header. -/
theorem c2_handle_login (env : Env) (today : String) (f : FormData) :
    handleLogin env today none = redirectResponse "/login?error=error"
    ∧ ((jsFalsy env.AUTH_USERNAME || jsFalsy env.AUTH_PASSWORD) = true →
        handleLogin env today (some f) = redirectResponse "/login?error=config")
    ∧ (∀ tok, (jsFalsy env.AUTH_USERNAME || jsFalsy env.AUTH_PASSWORD) = false →
        f.username = env.AUTH_USERNAME → f.password = env.AUTH_PASSWORD →
        getValidSessionToken env today = some tok →
        handleLogin env today (some f) =
          ⟨302, [("Location", "/"), ("Set-Cookie", setCookieHeader tok)],
           .text ""⟩)
    ∧ ((jsFalsy env.AUTH_USERNAME || jsFalsy env.AUTH_PASSWORD) = false →
        ¬(f.username = env.AUTH_USERNAME ∧ f.password = env.AUTH_PASSWORD) →
        handleLogin env today (some f) = redirectResponse "/login?error=invalid")
    ∧ (redirectResponse "/login?error=invalid").headers.lookup "Set-Cookie"
        = none := by
  refine ⟨rfl, ?_, ?_, ?_, by decide⟩
  · intro h
    simp [handleLogin, h]
  · intro tok h h1 h2 h3
    simp [handleLogin, h, h1, h2, h3]
  · intro h hn
    simp [handleLogin, h, hn]

/-- Witness for C2: concrete successful and failed logins. -/
theorem c2_handle_login_witness :
    handleLogin testEnv testDay (some ⟨some "admin", some "pw"⟩) =
      ⟨302, [("Location", "/"), ("Set-Cookie", setCookieHeader testToken)],
       .text ""⟩
    ∧ handleLogin testEnv testDay (some ⟨some "admin", some "nope"⟩) =
      redirectResponse "/login?error=invalid" := by
  constructor
  · exact (c2_handle_login testEnv testDay ⟨some "admin", some "pw"⟩).2.2.1
      testToken (by decide) (by decide) (by decide) (by decide)
  · exact (c2_handle_login testEnv testDay ⟨some "admin", some "nope"⟩).2.2.2.1
      (by decide) (by decide)

/-- Counterexample to claim C3: with `AUTH_USERNAME` unset,
`getValidSessionToken` does not return an error or an empty value — it
derives a non-empty token from the text `"undefined"` — and
`checkAuthentication` silently accepts that token. -/
theorem c3_counterexample :
    getValidSessionToken unsetEnv testDay = some undefinedToken
    ∧ undefinedToken ≠ ""
    ∧ checkAuthentication unsetEnv testDay
        ("session_token=" ++ undefinedToken) = some .authenticated := by
  decide

/-- Claim C3 (amended): `getValidSessionToken` performs no configuration
check — with `AUTH_USERNAME` unset (whatever the other secrets are) it
returns the non-empty token derived from `"undefined:{day}"`, and the
authentication gate accepts that token; the only missing-secret guard is in
`handleLogin`, which redirects with `error=config`. -/
theorem c3_amended (p t : Option String) :
    getValidSessionToken ⟨none, p, t⟩ testDay = some undefinedToken
    ∧ undefinedToken ≠ ""
    ∧ checkAuthentication ⟨none, p, t⟩ testDay
        ("session_token=" ++ undefinedToken) = some .authenticated
    ∧ handleLogin ⟨none, p, t⟩ testDay (some ⟨some "admin", some "pw"⟩)
        = redirectResponse "/login?error=config" := by
  exact ⟨rfl, by decide, rfl, rfl⟩

/-- Claim C4: token derivation is deterministic — two derivations that agree
on the configured secrets and on the calendar day yield the same token. -/
theorem c4_token_deterministic (e₁ e₂ : Env) (d₁ d₂ : String)
    (hu : e₁.AUTH_USERNAME = e₂.AUTH_USERNAME)
    (_hp : e₁.AUTH_PASSWORD = e₂.AUTH_PASSWORD)
    (hd : d₁ = d₂) :
    getValidSessionToken e₁ d₁ = getValidSessionToken e₂ d₂ := by
  simp [getValidSessionToken, hu, hd]

/-- Witness for C4: two concrete environments with the same secrets. -/
theorem c4_token_deterministic_witness :
    getValidSessionToken testEnv testDay =
      getValidSessionToken ⟨some "admin", some "pw", none⟩ testDay :=
  c4_token_deterministic testEnv ⟨some "admin", some "pw", none⟩ testDay testDay
    rfl rfl rfl

/-- Counterexample to claim C5: the code does not split a segment on the
FIRST `=` keeping the remainder — it splits on every `=` and keeps only the
first two fields, so on `"a=1=2"` the spec's description yields
`{a:"1=2"}` while `parseCookies` yields `{a:"1"}`. -/
theorem c5_counterexample :
    parseCookiesSpecFirstEq "a=1=2" = some [("a", "1=2")]
    ∧ parseCookies "a=1=2" = some [("a", "1")]
    ∧ some [(("a" : String), ("1=2" : String))]
        ≠ some [(("a" : String), ("1" : String))] := by
  decide

/-- Claim C5 (amended): `parseCookies` splits on `;`, trims each segment,
splits the segment on every `=` keeping only the first two fields (text
after a second `=` is discarded), URL-decodes the value, and stores the pair
only when both name and value are non-empty; malformed segments are skipped;
an empty header yields an empty mapping. -/
theorem c5_amended :
    parseCookies "a=1; b=2" = some [("a", "1"), ("b", "2")]
    ∧ parseCookies "" = some []
    ∧ parseCookies "malformed;;a=1" = some [("a", "1")]
    ∧ parseCookies "a=1=2" = some [("a", "1")]
    ∧ parseCookies "x=" = some []
    ∧ parseCookies "=1" = some []
    ∧ parseCookies "a=%41; b=x" = some [("a", "A"), ("b", "x")] := by
  decide

/-- Counterexample to claim C6: on the details endpoint an upstream 403 maps
to the generic `API_ERROR` (not `AUTHORIZATION_ERROR`) and an upstream 429
maps to `API_ERROR` (not `RATE_LIMIT_ERROR`). -/
theorem c6_counterexample :
    runFetch (handlePropertyDetailsAPI testEnv detailsReq)
        (fun _ => .resp 403 (.error "unused"))
      = ⟨403, jsonHeaders,
          .jsonErr ⟨"API_ERROR", "Failed to fetch property details",
            some 403, none⟩⟩
    ∧ runFetch (handlePropertyDetailsAPI testEnv detailsReq)
        (fun _ => .resp 429 (.error "unused"))
      = ⟨429, jsonHeaders,
          .jsonErr ⟨"API_ERROR", "Failed to fetch property details",
            some 429, none⟩⟩
    ∧ ("API_ERROR" : String) ≠ "AUTHORIZATION_ERROR"
    ∧ ("API_ERROR" : String) ≠ "RATE_LIMIT_ERROR" := by
  decide

/-- Claim C6 (amended): with the bearer token configured and a non-2xx
upstream status, each endpoint answers with the upstream status and a JSON
error object carrying that status and a fixed message — the list endpoint
maps 401, 403 and 429 to their named kinds and everything else (404
included) to `API_ERROR`; the details endpoint maps 401 and 404 to their
named kinds and everything else (403 and 429 included) to `API_ERROR`. -/
theorem c6_amended (env : Env) (req : Request) (status : Nat)
    (jb : Except String String)
    (htok : jsFalsy env.HOSPITABLE_API_TOKEN = false)
    (hnok : responseOk status = false) :
    runFetch (handlePropertiesAPI env req) (fun _ => .resp status jb)
      = ⟨status, jsonHeaders,
          .jsonErr
            ⟨if status = 401 then "AUTHENTICATION_ERROR"
              else if status = 403 then "AUTHORIZATION_ERROR"
              else if status = 429 then "RATE_LIMIT_ERROR"
              else "API_ERROR",
             if status = 401 then
               "Authentication failed. Please check your API token."
             else if status = 403 then
               "Access forbidden. Please check your API permissions."
             else if status = 429 then
               "Rate limit exceeded. Please try again later."
             else "API request failed",
             some status, none⟩⟩
    ∧ runFetch (handlePropertyDetailsAPI env req) (fun _ => .resp status jb)
      = ⟨status, jsonHeaders,
          .jsonErr
            ⟨if status = 401 then "AUTHENTICATION_ERROR"
              else if status = 404 then "NOT_FOUND_ERROR"
              else "API_ERROR",
             if status = 401 then
               "Authentication failed. Please check your API token."
             else if status = 404 then "Property not found."
             else "Failed to fetch property details",
             some status, none⟩⟩ := by
  constructor
  · simp [runFetch, handlePropertiesAPI, htok, hnok]
  · simp [runFetch, handlePropertyDetailsAPI, htok, hnok]

/-- Witness for C6: the claim's own example — upstream 429 on the list
endpoint yields status 429 with the `RATE_LIMIT_ERROR` body. -/
theorem c6_amended_witness :
    runFetch (handlePropertiesAPI testEnv listReq)
        (fun _ => .resp 429 (.error "unused"))
      = ⟨429, jsonHeaders,
          .jsonErr ⟨"RATE_LIMIT_ERROR",
            "Rate limit exceeded. Please try again later.", some 429, none⟩⟩ := by
  rw [(c6_amended testEnv listReq 429 (.error "unused")
    (by decide) (by decide)).1]
  decide

/-- Claim C7: when the upstream bearer token is unconfigured, both proxy
endpoints answer `.inl` — a 500 response with error `API_TOKEN_MISSING` —
without producing any outbound `FetchCall` (the `.inr` branch is the only
one that carries a call). -/
theorem c7_token_missing (env : Env) (req : Request)
    (h : jsFalsy env.HOSPITABLE_API_TOKEN = true) :
    handlePropertiesAPI env req =
      .inl ⟨500, jsonHeaders,
        .jsonErr ⟨"API_TOKEN_MISSING",
          "Hospitable API token not configured. Please set the HOSPITABLE_API_TOKEN secret in Cloudflare Workers.",
          none, none⟩⟩
    ∧ handlePropertyDetailsAPI env req =
      .inl ⟨500, jsonHeaders,
        .jsonErr ⟨"API_TOKEN_MISSING", "Hospitable API token not configured.",
          none, none⟩⟩ := by
  constructor
  · simp [handlePropertiesAPI, h]
  · simp [handlePropertyDetailsAPI, h]

/-- Witness for C7: the unset environment on both endpoints. -/
theorem c7_token_missing_witness :
    handlePropertiesAPI unsetEnv listReq =
      .inl ⟨500, jsonHeaders,
        .jsonErr ⟨"API_TOKEN_MISSING",
          "Hospitable API token not configured. Please set the HOSPITABLE_API_TOKEN secret in Cloudflare Workers.",
          none, none⟩⟩
    ∧ handlePropertyDetailsAPI unsetEnv detailsReq =
      .inl ⟨500, jsonHeaders,
        .jsonErr ⟨"API_TOKEN_MISSING", "Hospitable API token not configured.",
          none, none⟩⟩ :=
  ⟨(c7_token_missing unsetEnv listReq (by decide)).1,
   (c7_token_missing unsetEnv detailsReq (by decide)).2⟩

/-- Counterexample to claim C8: a request to an unknown path WITHOUT a valid
session cookie is answered with the 302 login redirect, not with 404 — the
404 is not independent of the authentication state. -/
theorem c8_counterexample :
    handleRequest testEnv testDay ⟨"GET", "/unknown/path", none, none, none, none⟩
        noFetch = some loginRedirect
    ∧ loginRedirect.status = 302
    ∧ (302 : Nat) ≠ 404 := by
  decide

/-- Claim C8 (amended): for a path matching no route, an authenticated
request gets 404 `"Not Found"`, while an unauthenticated one gets the
gate's login redirect. -/
theorem c8_amended (env : Env) (today : String) (req : Request)
    (fetchFn : FetchCall → FetchOutcome)
    (h1 : req.path ≠ "/login") (h2 : req.path ≠ "/styles.css")
    (h3 : req.path ≠ "/") (h4 : req.path ≠ "/index.html")
    (h5 : req.path ≠ "/app.js") (h6 : req.path ≠ "/api/properties")
    (h7 : strStartsWith req.path "/api/property/" = false) :
    (checkAuthentication env today (req.cookieHeader.getD "")
        = some .authenticated →
      handleRequest env today req fetchFn = some ⟨404, [], .text "Not Found"⟩)
    ∧ (∀ r, checkAuthentication env today (req.cookieHeader.getD "")
        = some (.unauthenticated r) →
      handleRequest env today req fetchFn = some r) := by
  constructor
  · intro hauth
    simp [handleRequest, h1, h2, h3, h4, h5, h6, h7, hauth]
  · intro r hauth
    simp [handleRequest, h1, h2, hauth]

/-- Witness for C8: with a valid session cookie, `GET /unknown/path` is 404
`"Not Found"`. -/
theorem c8_amended_witness :
    handleRequest testEnv testDay
      ⟨"GET", "/unknown/path", some ("session_token=" ++ testToken),
       none, none, none⟩ noFetch = some ⟨404, [], .text "Not Found"⟩ :=
  (c8_amended testEnv testDay
    ⟨"GET", "/unknown/path", some ("session_token=" ++ testToken),
     none, none, none⟩ noFetch (by decide) (by decide) (by decide) (by decide)
    (by decide) (by decide) (by decide)).1 (by decide)

/-- Counterexample to claim C9's stated mechanism: the code uses `btoa`
(Latin-1 code units), not the base64 of the UTF-8 bytes — for the username
`"é"` and day `"x"` the derived token is `"6Tp4"` while the UTF-8 reading
gives `"w6k6eA"`. -/
theorem c9_counterexample :
    getValidSessionToken ⟨some "é", some "pw", none⟩ "x" = some "6Tp4"
    ∧ deriveTokenSpecUTF8 "é" "x" = "w6k6eA"
    ∧ ("6Tp4" : String) ≠ "w6k6eA" := by
  decide

/-- Claim C9 (amended): whenever token derivation succeeds, the token
consists only of alphanumeric characters, and it is the base64 (`btoa`, over
Latin-1 code units — failing above U+00FF — rather than UTF-8 bytes) of
`"{username}:{calendarDay}"` with all non-alphanumeric characters
stripped. -/
theorem c9_amended (env : Env) (today t : String)
    (h : getValidSessionToken env today = some t) :
    t.data.all isAlnumChar = true
    ∧ ∃ u, btoa (jsToString env.AUTH_USERNAME ++ ":" ++ today) = some u
        ∧ t = stripNonAlnum u := by
  unfold getValidSessionToken at h
  cases hb : btoa (jsToString env.AUTH_USERNAME ++ ":" ++ today) with
  | none => rw [hb] at h; simp at h
  | some u =>
    rw [hb] at h
    simp only [Option.map_some', Option.some.injEq] at h
    exact ⟨h ▸ stripNonAlnum_all u, u, rfl, h.symm⟩

/-- Witness for C9: the concrete test token is all-alphanumeric. -/
theorem c9_amended_witness :
    getValidSessionToken testEnv testDay = some testToken
    ∧ testToken.data.all isAlnumChar = true :=
  ⟨by decide, (c9_amended testEnv testDay testToken (by decide)).1⟩

/-- Claim C10: the public-route check dispatches on the path alone — for any
method, environment and cookies, `/styles.css` is served with 200 and
`text/css`, and `/login` with any non-POST method is served with 200 and
`text/html`, in both cases without consulting the authentication gate
(`env`, `today` and the cookie header are arbitrary). -/
theorem c10_public_routes (env : Env) (today : String) (req : Request)
    (fetchFn : FetchCall → FetchOutcome) :
    (req.path = "/styles.css" →
      handleRequest env today req fetchFn =
        some ⟨200, [("Content-Type", "text/css")], .asset .stylesCss⟩)
    ∧ (req.path = "/login" → req.method ≠ "POST" →
      handleRequest env today req fetchFn =
        some ⟨200, [("Content-Type", "text/html")], .asset .loginHtml⟩) := by
  obtain ⟨m, p, ch, pg, pp, fo⟩ := req
  constructor
  · intro h
    subst h
    rfl
  · intro h hm
    subst h
    unfold handleRequest
    rw [if_neg (by rintro ⟨-, h2⟩; exact hm h2)]
    rfl

/-- Witness for C10: `POST /styles.css` and `PUT /login`, with a cookie
header present, still get the public assets. -/
theorem c10_public_routes_witness :
    handleRequest testEnv testDay
      ⟨"POST", "/styles.css", some "session_token=WRONG", none, none, none⟩
      noFetch = some ⟨200, [("Content-Type", "text/css")], .asset .stylesCss⟩
    ∧ handleRequest testEnv testDay
      ⟨"PUT", "/login", some "session_token=WRONG", none, none, none⟩
      noFetch = some ⟨200, [("Content-Type", "text/html")], .asset .loginHtml⟩ :=
  ⟨(c10_public_routes testEnv testDay
      ⟨"POST", "/styles.css", some "session_token=WRONG", none, none, none⟩
      noFetch).1 rfl,
   (c10_public_routes testEnv testDay
      ⟨"PUT", "/login", some "session_token=WRONG", none, none, none⟩
      noFetch).2 rfl (by decide)⟩

end Worker
